import Mathlib

/-!
Verification of the TravelOrbit conversational booking engine
(the dominant chat-state-machine variant of the repository's script:
states IDLE .. GROUP_ASK_OPTIONS, handlers handleAuthChoice ..
handleGroupOptionsInput).

The JavaScript source keeps the session in module-level mutable
variables (chatState, pendingAuthAction, tempAuth*, tempPassenger*,
tempGroup*, tripId, registerId, email, plus the localStorage "user"
record).  Here they are bundled into a `Session` record and every
handler becomes a pure function
  Session -> (collaborator responses) -> input -> Session × messages × calls
where `messages` is the ordered list of addAIMessage texts the handler
emits and `calls` the ordered list of collaborator (fetch) requests it
issues.  Responses of awaited fetches are supplied through a
`Responses` record (one field per endpoint), so a handler that awaits
a call consumes the corresponding field.

String primitives (trim, split(","), parseInt, includes, length,
toLowerCase, the phone cleanup regex) are re-implemented structurally
over `List Char` so that every definition kernel-evaluates; they mirror
the JavaScript semantics on the inputs the engine deals with (decimal
parseInt; the 0x-radix form of parseInt and non-ASCII case mapping are
not modelled).
-/

namespace TravelOrbit

/-- JavaScript string .length (code points; identical to JS code units on
the ASCII/BMP inputs handled here). -/
def jsLen (s : String) : Nat := s.data.length

/-- Does the character list contain `pat` as a contiguous sublist
(JS String.prototype.includes)? -/
def listHasSub (pat : List Char) : List Char → Bool
  | [] => pat.isEmpty
  | c :: cs => pat.isPrefixOf (c :: cs) || listHasSub pat cs

/-- JS s.includes(pat). -/
def strIncludes (s pat : String) : Bool := listHasSub pat.data s.data

/-- JS String.prototype.toLowerCase (ASCII). -/
def jsToLower (s : String) : String := ⟨s.data.map Char.toLower⟩

/-- JS String.prototype.trim: strip leading and trailing whitespace. -/
def jsTrim (s : String) : String :=
  ⟨((s.data.dropWhile Char.isWhitespace).reverse.dropWhile Char.isWhitespace).reverse⟩

/-- Split a character list at commas (JS s.split(",")). -/
def splitCommaAux : List Char → List Char → List (List Char)
  | [], acc => [acc.reverse]
  | c :: cs, acc =>
      if c = ',' then acc.reverse :: splitCommaAux cs []
      else splitCommaAux cs (c :: acc)

/-- JS s.split(","). -/
def jsSplitComma (s : String) : List String :=
  (splitCommaAux s.data []).map fun cs => ⟨cs⟩

/-- JS input.split(",").map(s => s.trim()), as used for passenger-detail
lines and group destination options. -/
def jsSplitTrim (s : String) : List String := (jsSplitComma s).map jsTrim

/-- Numeric value of a list of decimal digit characters. -/
def digitsToNat (ds : List Char) : Nat :=
  ds.foldl (fun acc c => acc * 10 + (c.toNat - 48)) 0

/-- Leading decimal-digit run of a character list. -/
def leadingDigits (cs : List Char) : List Char := cs.takeWhile Char.isDigit

/-- Decimal JS parseInt on a character list already stripped of leading
whitespace: optional sign, then the leading digit run; none when that
run is empty (NaN). -/
def parseIntCore : List Char → Option Int
  | [] => none
  | c :: rest =>
      if c = '-' then
        if (leadingDigits rest).isEmpty then none
        else some (-(digitsToNat (leadingDigits rest) : Int))
      else if c = '+' then
        if (leadingDigits rest).isEmpty then none
        else some (digitsToNat (leadingDigits rest) : Int)
      else
        if (leadingDigits (c :: rest)).isEmpty then none
        else some (digitsToNat (leadingDigits (c :: rest)) : Int)

/-- JS parseInt(s) (decimal): skip leading whitespace, optional sign,
parse the leading digit run, ignore any trailing characters; `none`
models NaN. -/
def jsParseInt (s : String) : Option Int :=
  parseIntCore (s.data.dropWhile Char.isWhitespace)

/-- The phone cleanup regex replace(/[\s-]/g, ""): drop whitespace and
dashes. -/
def jsCleanPhone (s : String) : String :=
  ⟨s.data.filter fun c => !(c.isWhitespace || c = '-')⟩

/-- JS s.startsWith("+"). -/
def startsWithPlus (s : String) : Bool :=
  match s.data with
  | c :: _ => c = '+'
  | [] => false

/-- JS /^\d+$/.test(s): non-empty and all decimal digits. -/
def allDigits (s : String) : Bool := !s.data.isEmpty && s.data.all Char.isDigit

/-- JS `o || dflt` on an optional string: null/undefined and "" are falsy. -/
def jsOrDefault (o : Option String) (dflt : String) : String :=
  match o with
  | some v => if v.data.isEmpty then dflt else v
  | none => dflt

/-! ## Data model -/

/-- The ChatState enum of the source. -/
inductive ChatState where
  | IDLE
  | AUTH_CHOICE
  | AUTH_EMAIL
  | AUTH_EMAIL_OTP
  | AUTH_PHONE
  | AUTH_NAME
  | AUTH_PHONE_OTP
  | PASSENGER_COUNT
  | PASSENGER_DETAILS
  | ASK_FROM_CITY
  | GROUP_ASK_TYPE
  | GROUP_ASK_NAME
  | GROUP_ASK_SOURCE
  | GROUP_ASK_COUNT
  | GROUP_ASK_OPTIONS
  deriving DecidableEq, Repr

/-- The pendingAuthAction.type strings DEAL / PLAN / GROUP_PLAN. -/
inductive PendingType where
  | DEAL
  | PLAN
  | GROUP_PLAN
  deriving DecidableEq, Repr

/-- The deal object passed to initiateBookingFlow('DEAL', {id, destination});
handleFromCityInput later mutates from_city onto it. -/
structure DealData where
  id : String
  destination : String
  from_city : Option String := none
  deriving DecidableEq, Repr

/-- pendingAuthAction = { type, data }. -/
structure PendingAction where
  type : PendingType
  data : Option DealData
  deriving DecidableEq, Repr

/-- One entry of tempPassengers: { name, age, phone }. -/
structure Passenger where
  name : String
  age : Int
  phone : String
  deriving DecidableEq, Repr

/-- The localStorage "user" record saved by completeLogin. -/
structure StoredUser where
  name : String
  email : String
  phone : String
  register_id : String
  deriving DecidableEq, Repr

/-- The identity payload a verify endpoint returns to completeLogin. -/
structure UserData where
  name : Option String
  email : String
  phone : String
  register_id : String
  deriving DecidableEq, Repr

/-- All module-level mutable variables of the script, as one record. -/
structure Session where
  tripId : Option String
  registerId : Option String
  email : Option String
  localUser : Option StoredUser
  chatState : ChatState
  pendingAuthAction : Option PendingAction
  tempAuthEmail : Option String
  tempAuthPhone : Option String
  tempAuthName : Option String
  tempGoogleId : Option String
  tempPassengerCount : Int
  tempPassengers : List Passenger
  tempGroupName : Option String
  tempGroupCount : Int
  tempGroupSource : Option String
  tempGroupOptions : List String
  deriving DecidableEq, Repr

/-- A collaborator (fetch) request issued by a handler, with the data the
request body carries. -/
inductive Call where
  | sessionStart
  | sendTripMessage (tripId : String) (message : String)
  | getTrip (tripId : Option String)
  | googleAuthUrl
  | emailLogin (email : String)
  | emailVerify (email : Option String) (code : String)
  | googlePhoneSendOtp (googleTempId : Option String) (phone : Option String)
  | phoneSignupSendOtp (phone : Option String) (email : Option String) (name : Option String)
  | phoneSignupVerify (phone : Option String) (code : String)
  | googlePhoneVerify (googleTempId : Option String) (code : String)
  | savePassengers (tripId : Option String) (passengers : List Passenger) (contactPhone : String)
  | loadPackages (tripId : Option String)
  | startPlanFromDeal (dealId : String) (passengers : List Passenger) (fromCity : String)
  | createGroup (groupName : Option String) (fromCity : Option String)
      (expectedCount : Int) (options : List String)
  deriving DecidableEq, Repr

/-- Response body of /trip-plan/session/message. -/
structure ChatResp where
  ai_message : Option String
  is_final_itinerary : Bool
  deriving DecidableEq, Repr

/-- Response status of /auth/email/login. -/
inductive EmailLoginStatus where
  | existing
  | newUser
  deriving DecidableEq, Repr

/-- Response body of /groups/create. -/
structure GroupCreateResp where
  message : String
  shareable_link : String
  group_id : String
  deriving DecidableEq, Repr

/-- Outcome of each awaited collaborator endpoint, supplied to the step
function; `Except.error e` models a non-ok response or network failure
whose message is `e`. -/
structure Responses where
  sessionStart : Except String String
  chatResp : Except String ChatResp
  googleUrl : Except String String
  emailLogin : Except String EmailLoginStatus
  emailVerify : Except String UserData
  googlePhoneSendOtp : Except String String
  phoneSignupSendOtp : Except String Unit
  phoneVerify : Except String UserData
  savePassengers : Except String Unit
  startPlanFromDeal : Except String String
  createGroup : Except String GroupCreateResp
  deriving Repr

/-- A handler step result: new session, AI messages emitted in order, and
collaborator calls issued in order. -/
abbrev StepResult := Session × List String × List Call

/-! ## Handlers (one Lean function per JS handler, same names) -/

/-- startSession(): POST /trip-plan/session/start; on ok record trip_id and
greet, on failure emit the connection-error message. -/
def startSession (s : Session) (env : Responses) : StepResult :=
  match env.sessionStart with
  | .ok tid =>
      ({ s with tripId := some tid },
       ["Hi! I am TravelOrbit ✈️. Where would you like to travel today?"],
       [Call.sessionStart])
  | .error _ =>
      (s, ["⚠️ Connection error. Please refresh the page."], [Call.sessionStart])

/-- startPassengerCollection(): enter PASSENGER_COUNT with its prompt. -/
def startPassengerCollection (s : Session) : Session × List String :=
  ({ s with chatState := ChatState.PASSENGER_COUNT },
   ["👥 How many people are travelling (including yourself)? Please enter a number (e.g., 2)."])

/-- initiateBookingFlow(type, data): record pendingAuthAction; if a
localStorage user exists, adopt its identity and go straight to passenger
collection, else enter AUTH_CHOICE with the login prompts. -/
def initiateBookingFlow (s : Session) (ty : PendingType) (data : Option DealData) :
    Session × List String :=
  let s1 := { s with pendingAuthAction := some { type := ty, data := data } }
  match s1.localUser with
  | some u =>
      let s2 := { s1 with registerId := some u.register_id, email := some u.email }
      let r := startPassengerCollection s2
      (r.1, ("✅ You are logged in as " ++ u.name) :: r.2)
  | none =>
      ({ s1 with chatState := ChatState.AUTH_CHOICE },
       ["🔒 To proceed with booking, I need to verify your identity.",
        "Please choose a login method:"])

/-- startGroupPlan(): if no localStorage user, reuse the auth flow with a
GROUP_PLAN pending action; else enter GROUP_ASK_TYPE. -/
def startGroupPlan (s : Session) : Session × List String :=
  match s.localUser with
  | none => initiateBookingFlow s PendingType.GROUP_PLAN none
  | some _ =>
      ({ s with chatState := ChatState.GROUP_ASK_TYPE },
       ["Are you planning alone or with friends?"])

/-- completeLogin(userData): save the user record, update the identity
globals, greet, and resume either the group flow (pending GROUP_PLAN) or
passenger collection.  Note the source clears none of the tempAuth*
fields and does not reset pendingAuthAction here. -/
def completeLogin (s : Session) (userData : UserData) : Session × List String :=
  let user : StoredUser :=
    { name := userData.name.getD "Traveler", email := userData.email,
      phone := userData.phone, register_id := userData.register_id }
  let s1 := { s with localUser := some user, registerId := some user.register_id,
                     email := some user.email }
  let hello := "🎉 Login successful! Welcome, " ++ user.name ++ "."
  let next :=
    match s1.pendingAuthAction with
    | some pa =>
        if pa.type = PendingType.GROUP_PLAN then startGroupPlan s1
        else startPassengerCollection s1
    | none => startPassengerCollection s1
  (next.1, hello :: next.2)

/-- renderItinerary(): fetch the trip (render effect only). -/
def renderItinerary (s : Session) : List Call := [Call.getTrip s.tripId]

/-- sendChatMessage(message): forward free text to the trip-plan
collaborator; a final itinerary triggers renderItinerary and
initiateBookingFlow('PLAN'). -/
def sendChatMessage (s : Session) (env : Responses) (message : String) : StepResult :=
  match s.tripId with
  | none =>
      let r := startSession s env
      (r.1, "❌ Session not active. Refreshing..." :: r.2.1, r.2.2)
  | some tid =>
      let call := Call.sendTripMessage tid message
      match env.chatResp with
      | .error e => (s, ["❌ Error: " ++ e], [call])
      | .ok data =>
          let ms := match data.ai_message with
            | some m => [m]
            | none => []
          if data.is_final_itinerary then
            let r := initiateBookingFlow s PendingType.PLAN none
            (r.1, ms ++ r.2, call :: renderItinerary s)
          else (s, ms, [call])

/-- handleAuthChoice(choice): "google" opens the third-party login and
stays in AUTH_CHOICE waiting for the popup; anything else moves to
AUTH_EMAIL. -/
def handleAuthChoice (s : Session) (env : Responses) (choice : String) : StepResult :=
  if strIncludes (jsToLower choice) "google" then
    match env.googleUrl with
    | .ok _ =>
        (s, ["🔄 Opening Google Login...", "Waiting for Google Login to complete..."],
         [Call.googleAuthUrl])
    | .error _ =>
        (s, ["🔄 Opening Google Login...", "❌ Error getting Google Login URL."],
         [Call.googleAuthUrl])
  else
    ({ s with chatState := ChatState.AUTH_EMAIL }, ["Please enter your **Email Address**."], [])

/-- handleAuthEmailInput(inputEmail): reject without a call when "@" is
missing; else record tempAuthEmail, call /auth/email/login and branch on
existing vs new. -/
def handleAuthEmailInput (s : Session) (env : Responses) (inputEmail : String) : StepResult :=
  if !strIncludes inputEmail "@" then
    (s, ["⚠️ Please enter a valid email address."], [])
  else
    let s1 := { s with tempAuthEmail := some inputEmail }
    let call := Call.emailLogin inputEmail
    match env.emailLogin with
    | .ok EmailLoginStatus.existing =>
        ({ s1 with chatState := ChatState.AUTH_EMAIL_OTP },
         ["⏳ Checking email...",
          "✅ Account found! OTP sent to your email. Please enter the **6-digit code**."],
         [call])
    | .ok EmailLoginStatus.newUser =>
        ({ s1 with chatState := ChatState.AUTH_PHONE },
         ["⏳ Checking email...",
          "🆕 It looks like you are new here. Let us set up your account.",
          "Please enter your **Phone Number** (e.g., +919876543210)."],
         [call])
    | .error e =>
        (s1, ["⏳ Checking email...", "❌ Error: " ++ e ++ ". Please try again."], [call])

/-- handleAuthEmailOtpInput(otp): verify against /auth/email/verify; ok
runs completeLogin, failure re-prompts in the same state. -/
def handleAuthEmailOtpInput (s : Session) (env : Responses) (otp : String) : StepResult :=
  let call := Call.emailVerify s.tempAuthEmail otp
  match env.emailVerify with
  | .ok data =>
      let r := completeLogin s data
      (r.1, "⏳ Verifying Email OTP..." :: r.2, [call])
  | .error e =>
      (s, ["⏳ Verifying Email OTP...",
           "❌ Verification failed: " ++ e ++ ". Please enter the OTP again."],
       [call])

/-- sendGooglePhoneOtp(): request a phone OTP through the Google-linking
endpoint; ok rotates tempGoogleId and enters AUTH_PHONE_OTP. -/
def sendGooglePhoneOtp (s : Session) (env : Responses) : StepResult :=
  let sending := "⏳ Sending OTP to " ++ jsOrDefault s.tempAuthPhone "null" ++ "..."
  let call := Call.googlePhoneSendOtp s.tempGoogleId s.tempAuthPhone
  match env.googlePhoneSendOtp with
  | .ok newId =>
      ({ s with tempGoogleId := some newId, chatState := ChatState.AUTH_PHONE_OTP },
       [sending, "✅ OTP sent to your phone! Please enter the **6-digit code**."],
       [call])
  | .error e =>
      (s, [sending, "❌ Error sending OTP: " ++ e], [call])

/-- handleAuthPhoneInput(phone): strip whitespace/dashes; reject under 10
characters; prefix +91 for a 10-digit all-numeric number, else a bare +
when missing; then either the Google OTP path (tempGoogleId set) or
AUTH_NAME. -/
def handleAuthPhoneInput (s : Session) (env : Responses) (phone : String) : StepResult :=
  let cleanPhone := jsCleanPhone phone
  if jsLen cleanPhone < 10 then
    (s, ["⚠️ Please enter a valid phone number (at least 10 digits)."], [])
  else
    let cleanPhone2 :=
      if jsLen cleanPhone = 10 && allDigits cleanPhone then "+91" ++ cleanPhone
      else if !startsWithPlus cleanPhone then "+" ++ cleanPhone
      else cleanPhone
    let s1 := { s with tempAuthPhone := some cleanPhone2 }
    match s1.tempGoogleId with
    | some _ => sendGooglePhoneOtp s1 env
    | none =>
        ({ s1 with chatState := ChatState.AUTH_NAME }, ["Please enter your **Full Name**."], [])

/-- handleAuthNameInput(name): require length at least 2; record the name
and request the signup phone OTP; ok enters AUTH_PHONE_OTP. -/
def handleAuthNameInput (s : Session) (env : Responses) (name : String) : StepResult :=
  if jsLen name < 2 then
    (s, ["⚠️ Please enter a valid name."], [])
  else
    let s1 := { s with tempAuthName := some name }
    let sending := "⏳ Sending OTP to " ++ jsOrDefault s1.tempAuthPhone "null" ++ "..."
    let call := Call.phoneSignupSendOtp s1.tempAuthPhone s1.tempAuthEmail s1.tempAuthName
    match env.phoneSignupSendOtp with
    | .ok _ =>
        ({ s1 with chatState := ChatState.AUTH_PHONE_OTP },
         [sending, "✅ OTP sent to your phone! Please enter the **6-digit code**."],
         [call])
    | .error e =>
        (s1, [sending, "❌ Error sending OTP: " ++ e ++ ". Please try again."], [call])

/-- handleAuthPhoneOtpInput(otp): verify against the Google-linking
endpoint when tempGoogleId is set, else the signup endpoint; ok runs
completeLogin, failure re-prompts in the same state. -/
def handleAuthPhoneOtpInput (s : Session) (env : Responses) (otp : String) : StepResult :=
  let call :=
    match s.tempGoogleId with
    | some _ => Call.googlePhoneVerify s.tempGoogleId otp
    | none => Call.phoneSignupVerify s.tempAuthPhone otp
  match env.phoneVerify with
  | .ok data =>
      let r := completeLogin s data
      (r.1, "⏳ Verifying Phone OTP..." :: r.2, [call])
  | .error e =>
      (s, ["⏳ Verifying Phone OTP...",
           "❌ Verification failed: " ++ e ++ ". Please enter the OTP again."],
       [call])

/-- handlePassengerCountInput(input): parseInt; NaN or below 1 re-prompts
in place; otherwise set expectedCount, reset the collected list and enter
PASSENGER_DETAILS. -/
def handlePassengerCountInput (s : Session) (input : String) : StepResult :=
  match jsParseInt input with
  | none => (s, ["⚠️ Please enter a valid number (1 or more)."], [])
  | some count =>
      if count < 1 then (s, ["⚠️ Please enter a valid number (1 or more)."], [])
      else
        ({ s with tempPassengerCount := count, tempPassengers := [],
                  chatState := ChatState.PASSENGER_DETAILS },
         ["📝 Great, " ++ toString count ++ " travelers. Please provide details for **Passenger 1** (Name, Age, Phone).",
          "Format: `Name, Age, Phone` (e.g., John Doe, 30, 9876543210)"],
         [])

/-- savePassengersAndProceed(): POST the collected passengers for the plan
trip then load packages; the contact phone is passenger 0's phone (an
empty collected list throws inside the try and only yields the catch
message). -/
def savePassengersAndProceed (s : Session) (env : Responses) : StepResult :=
  match s.tempPassengers with
  | [] =>
      (s, ["❌ Error saving details: Cannot read properties of undefined"], [])
  | p :: _ =>
      let call := Call.savePassengers s.tripId s.tempPassengers p.phone
      match env.savePassengers with
      | .ok _ =>
          (s, ["📋 Details confirmed. Loading packages..."], [call, Call.loadPackages s.tripId])
      | .error e =>
          (s, ["❌ Error saving details: " ++ e], [call])

/-- finalizeDealBooking(dealData): POST /deals/{id}/start-plan with the
collected passengers and from_city (defaulting to "User City"); ok
replaces tripId and heads to payment, failure only emits the booking-failed
message (an empty collected list throws inside the try before the fetch). -/
def finalizeDealBooking (s : Session) (env : Responses) (dealData : DealData) : StepResult :=
  match s.tempPassengers with
  | [] =>
      (s, ["❌ Booking failed: Cannot read properties of undefined"], [])
  | _ :: _ =>
      let call := Call.startPlanFromDeal dealData.id s.tempPassengers
        (jsOrDefault dealData.from_city "User City")
      match env.startPlanFromDeal with
      | .ok newTripId =>
          ({ s with tripId := some newTripId },
           ["✅ Booking created for " ++ dealData.destination ++ "!",
            "💳 Proceeding to payment..."],
           [call])
      | .error e =>
          (s, ["❌ Booking failed: " ++ e], [call])

/-- The passenger record a detail line builds: name = part 0, age =
parseInt(part 1) || 25 (NaN and the falsy 0 both default to 25), phone =
part 2 || "". -/
def parsePassenger (parts : List String) : Passenger :=
  { name := parts.headD "",
    age :=
      match jsParseInt (parts.getD 1 "") with
      | none => 25
      | some 0 => 25
      | some a => a,
    phone := parts.getD 2 "" }

/-- handlePassengerDetailsInput(input): split on commas and trim; fewer
than two parts re-prompts in place; else append the parsed passenger.
While the collected list is still short, prompt for the next passenger;
once full, a pending DEAL action moves to ASK_FROM_CITY, anything else
returns to IDLE and saves the plan passengers. -/
def handlePassengerDetailsInput (s : Session) (env : Responses) (input : String) : StepResult :=
  let parts := jsSplitTrim input
  if parts.length < 2 then
    (s, ["⚠️ Please use the format: `Name, Age, Phone`"], [])
  else
    let s1 := { s with tempPassengers := s.tempPassengers ++ [parsePassenger parts] }
    if (s1.tempPassengers.length : Int) < s1.tempPassengerCount then
      (s1, ["✅ Saved. Please provide details for **Passenger " ++
            toString (s1.tempPassengers.length + 1) ++ "**."], [])
    else
      let saved := "✅ All passenger details saved!"
      match s1.pendingAuthAction with
      | some pa =>
          if pa.type = PendingType.DEAL then
            ({ s1 with chatState := ChatState.ASK_FROM_CITY },
             [saved, "🏙️ Where are you traveling from? (e.g., Mumbai, Delhi)"], [])
          else
            let r := savePassengersAndProceed { s1 with chatState := ChatState.IDLE } env
            (r.1, saved :: r.2.1, r.2.2)
      | none =>
          let r := savePassengersAndProceed { s1 with chatState := ChatState.IDLE } env
          (r.1, saved :: r.2.1, r.2.2)

/-- handleFromCityInput(city): require length at least 2; attach the city
to the pending deal payload, return to IDLE and finalize the deal booking.
With a null pendingAuthAction the source throws before mutating anything,
so that unreachable branch is modelled as a silent no-op. -/
def handleFromCityInput (s : Session) (env : Responses) (city : String) : StepResult :=
  if jsLen city < 2 then
    (s, ["⚠️ Please enter a valid city name."], [])
  else
    match s.pendingAuthAction with
    | some pa =>
        match pa.data with
        | some d =>
            let d2 := { d with from_city := some city }
            let s1 := { s with pendingAuthAction := some { pa with data := some d2 },
                               chatState := ChatState.IDLE }
            finalizeDealBooking s1 env d2
        | none => (s, [], [])
    | none => (s, [], [])

/-- handleGroupTypeInput(message): text containing "alone" goes back to
IDLE and forwards a solo-trip message to the trip-plan collaborator;
anything else enters GROUP_ASK_NAME. -/
def handleGroupTypeInput (s : Session) (env : Responses) (message : String) : StepResult :=
  if strIncludes (jsToLower message) "alone" then
    let s1 := { s with chatState := ChatState.IDLE }
    let r := sendChatMessage s1 env "I want to plan a solo trip."
    (r.1, "Okay, we will plan a solo trip!" :: r.2.1, r.2.2)
  else
    ({ s with chatState := ChatState.GROUP_ASK_NAME },
     ["Exciting! What should we call this group trip?"], [])

/-- handleGroupNameInput(message): record the group name, move to
GROUP_ASK_SOURCE. -/
def handleGroupNameInput (s : Session) (message : String) : StepResult :=
  ({ s with tempGroupName := some message, chatState := ChatState.GROUP_ASK_SOURCE },
   ["\"" ++ message ++ "\" sounds great! Where are you traveling from? (Source Place)"], [])

/-- handleGroupSourceInput(message): record the source city, move to
GROUP_ASK_COUNT. -/
def handleGroupSourceInput (s : Session) (message : String) : StepResult :=
  ({ s with tempGroupSource := some message, chatState := ChatState.GROUP_ASK_COUNT },
   ["Okay, traveling from " ++ message ++ ". How many people are in the group (including you)?"],
   [])

/-- handleGroupCountInput(message): parseInt; NaN or below 2 re-prompts in
place; else record the count and enter GROUP_ASK_OPTIONS. -/
def handleGroupCountInput (s : Session) (message : String) : StepResult :=
  match jsParseInt message with
  | none => (s, ["Please enter a valid number (at least 2 for a group)."], [])
  | some count =>
      if count < 2 then (s, ["Please enter a valid number (at least 2 for a group)."], [])
      else
        ({ s with tempGroupCount := count, chatState := ChatState.GROUP_ASK_OPTIONS },
         ["Got it, " ++ toString count ++ " people. Now, please list **4 destination options** for the poll (comma separated).",
          "Example: Bali, Goa, Paris, Dubai"],
         [])

/-- The option list handleGroupOptionsInput builds: split on commas, trim,
drop empties. -/
def parseGroupOptions (message : String) : List String :=
  (jsSplitTrim message).filter fun e => 0 < jsLen e

/-- handleGroupOptionsInput(message): fewer than two non-empty options
re-prompts in place; else record them, POST /groups/create, and on ok share
the link and return to IDLE (a failed call leaves the state as it was). -/
def handleGroupOptionsInput (s : Session) (env : Responses) (message : String) : StepResult :=
  let options := parseGroupOptions message
  if options.length < 2 then
    (s, ["Please provide at least 2 options for the poll."], [])
  else
    let s1 := { s with tempGroupOptions := options }
    let call := Call.createGroup s1.tempGroupName s1.tempGroupSource s1.tempGroupCount options
    match env.createGroup with
    | .ok data =>
        ({ s1 with chatState := ChatState.IDLE },
         ["Creating your group poll...", data.message, data.shareable_link],
         [call])
    | .error e =>
        (s1, ["Creating your group poll...", "❌ Error creating group: " ++ e], [call])

/-- handleUserAction(): trim the text box, ignore empty input, and route
to the handler of the current state (IDLE and unknown states forward to
sendChatMessage). -/
def handleUserAction (s : Session) (env : Responses) (raw : String) : StepResult :=
  let message := jsTrim raw
  if jsLen message = 0 then (s, [], [])
  else
    match s.chatState with
    | ChatState.AUTH_CHOICE => handleAuthChoice s env message
    | ChatState.AUTH_EMAIL => handleAuthEmailInput s env message
    | ChatState.AUTH_EMAIL_OTP => handleAuthEmailOtpInput s env message
    | ChatState.AUTH_PHONE => handleAuthPhoneInput s env message
    | ChatState.AUTH_NAME => handleAuthNameInput s env message
    | ChatState.AUTH_PHONE_OTP => handleAuthPhoneOtpInput s env message
    | ChatState.PASSENGER_COUNT => handlePassengerCountInput s message
    | ChatState.PASSENGER_DETAILS => handlePassengerDetailsInput s env message
    | ChatState.ASK_FROM_CITY => handleFromCityInput s env message
    | ChatState.GROUP_ASK_TYPE => handleGroupTypeInput s env message
    | ChatState.GROUP_ASK_NAME => handleGroupNameInput s message
    | ChatState.GROUP_ASK_SOURCE => handleGroupSourceInput s message
    | ChatState.GROUP_ASK_COUNT => handleGroupCountInput s message
    | ChatState.GROUP_ASK_OPTIONS => handleGroupOptionsInput s env message
    | ChatState.IDLE => sendChatMessage s env message

/-! ## Derived notions used by the claim statements -/

/-- The guard pendingAuthAction && pendingAuthAction.type === 'DEAL' of the
passenger-details completion branch. -/
def pendingIsDeal (s : Session) : Bool :=
  match s.pendingAuthAction with
  | some pa => pa.type == PendingType.DEAL
  | none => false

/-- Is this call the passenger-list save request of the plan flow? -/
def callIsSavePassengers : Call → Bool
  | Call.savePassengers _ _ _ => true
  | _ => false

/-- Does the list start with a non-digit (or is empty)? -/
def headNotDigit : List Char → Bool
  | [] => true
  | c :: _ => !c.isDigit

/-- The trip-plan response does not announce a final itinerary (so the
IDLE-bound transitions are not immediately re-routed into the booking
gate). -/
def chatRespNotFinal (env : Responses) : Bool :=
  match env.chatResp with
  | Except.ok r => !r.is_final_itinerary
  | Except.error _ => true

/-- The synchronous part of handleAuthEmailInput — everything the JS async
handler runs before its awaited email-login response is consumed:
validation, recording tempAuthEmail, the progress message, and issuing the
fetch.  While that response is pending, chatState has not been updated,
which is the window in which a second submission of the same text is
routed to the very same handler. -/
def authEmailDispatch (s : Session) (inputEmail : String) : StepResult :=
  if !strIncludes inputEmail "@" then
    (s, ["⚠️ Please enter a valid email address."], [])
  else
    ({ s with tempAuthEmail := some inputEmail },
     ["⏳ Checking email..."],
     [Call.emailLogin inputEmail])

/-- Is this call the deal-finalization start-plan request? -/
def callIsStartPlanFromDeal : Call → Bool
  | Call.startPlanFromDeal _ _ _ => true
  | _ => false

/-- The synchronous part of handleFromCityInput together with
finalizeDealBooking up to its awaited response: validation, attaching the
city to the pending deal payload, committing chatState = IDLE, and issuing
the start-plan call (with an empty collected list the source throws inside
the try before the fetch and only the catch message is emitted).  Unlike
the email handler, the state transition here happens before the awaited
call, so the session already sits in IDLE while the response is pending. -/
def fromCityDispatch (s : Session) (city : String) : StepResult :=
  if jsLen city < 2 then
    (s, ["⚠️ Please enter a valid city name."], [])
  else
    match s.pendingAuthAction with
    | some pa =>
        match pa.data with
        | some d =>
            let d2 := { d with from_city := some city }
            let s1 := { s with pendingAuthAction := some { pa with data := some d2 },
                               chatState := ChatState.IDLE }
            match s.tempPassengers with
            | [] => (s1, ["❌ Booking failed: Cannot read properties of undefined"], [])
            | _ :: _ =>
                (s1, [],
                 [Call.startPlanFromDeal d2.id s.tempPassengers
                    (jsOrDefault d2.from_city "User City")])
        | none => (s, [], [])
    | none => (s, [], [])

/-! ## Facts about the string primitives -/

theorem isWhitespace_eq_false_of_isDigit (c : Char) (h : c.isDigit = true) :
    c.isWhitespace = false := by
  have h1 : c ≠ ' ' := fun e => absurd (e ▸ h) (by decide)
  have h2 : c ≠ '\t' := fun e => absurd (e ▸ h) (by decide)
  have h3 : c ≠ '\r' := fun e => absurd (e ▸ h) (by decide)
  have h4 : c ≠ '\n' := fun e => absurd (e ▸ h) (by decide)
  simp [Char.isWhitespace, h1, h2, h3, h4]

theorem ne_dash_of_isDigit (c : Char) (h : c.isDigit = true) : c ≠ '-' :=
  fun e => absurd (e ▸ h) (by decide)

theorem ne_plus_of_isDigit (c : Char) (h : c.isDigit = true) : c ≠ '+' :=
  fun e => absurd (e ▸ h) (by decide)

theorem takeWhile_append_of_headNotDigit (ds rest : List Char)
    (hdig : ds.all Char.isDigit = true) (hrest : headNotDigit rest = true) :
    (ds ++ rest).takeWhile Char.isDigit = ds := by
  induction ds with
  | nil =>
      cases rest with
      | nil => simp
      | cons r rs =>
          simp only [headNotDigit, Bool.not_eq_true'] at hrest
          simp [List.takeWhile_cons, hrest]
  | cons d ds ih =>
      simp only [List.all_cons, Bool.and_eq_true] at hdig
      simp [List.takeWhile_cons, hdig.1, ih hdig.2]

/-- Every branch of savePassengersAndProceed leaves the session untouched. -/
theorem savePassengersAndProceed_fst (s : Session) (env : Responses) :
    (savePassengersAndProceed s env).1 = s := by
  unfold savePassengersAndProceed
  rcases s.tempPassengers with _ | ⟨p, ps⟩
  · rfl
  · cases env.savePassengers <;> rfl

/-- With a non-empty collected list, savePassengersAndProceed always issues
the passenger-save request (whether or not it succeeds). -/
theorem savePassengersAndProceed_calls (s : Session) (env : Responses)
    (h : s.tempPassengers ≠ []) :
    ∃ c ∈ (savePassengersAndProceed s env).2.2, callIsSavePassengers c = true := by
  unfold savePassengersAndProceed
  rcases hl : s.tempPassengers with _ | ⟨p, ps⟩
  · exact absurd hl h
  · cases env.savePassengers <;> simp [callIsSavePassengers]

/-- parseInt on a string made of a non-empty digit run followed by anything
that does not start with a digit reads exactly that digit run. -/
theorem jsParseInt_digits_append (ds : List Char) (rest : List Char)
    (hne : ds.isEmpty = false) (hdig : ds.all Char.isDigit = true)
    (hrest : headNotDigit rest = true) :
    jsParseInt ⟨ds ++ rest⟩ = some (digitsToNat ds : Int) := by
  cases ds with
  | nil => simp at hne
  | cons d ds =>
      simp only [List.all_cons, Bool.and_eq_true] at hdig
      have hd : d.isDigit = true := hdig.1
      have hw : d.isWhitespace = false := isWhitespace_eq_false_of_isDigit d hd
      have htake : ((d :: ds) ++ rest).takeWhile Char.isDigit = d :: ds :=
        takeWhile_append_of_headNotDigit (d :: ds) rest (by simp [hd, hdig.2]) hrest
      unfold jsParseInt
      have hdata : (String.mk ((d :: ds) ++ rest)).data = (d :: ds) ++ rest := rfl
      rw [hdata]
      have hdrop : ((d :: ds) ++ rest).dropWhile Char.isWhitespace = (d :: ds) ++ rest := by
        simp [List.dropWhile_cons, hw]
      rw [hdrop]
      rw [show (d :: ds) ++ rest = d :: (ds ++ rest) from rfl] at htake ⊢
      simp only [parseIntCore]
      rw [if_neg (ne_dash_of_isDigit d hd), if_neg (ne_plus_of_isDigit d hd)]
      unfold leadingDigits
      rw [htake]
      simp

/-! ## Concrete fixtures for witnesses and counterexamples -/

/-- A fresh guest session with an active trip, in IDLE. -/
def guestSession : Session where
  tripId := some "T1"
  registerId := some "guest-abc123"
  email := some "guest@example.com"
  localUser := none
  chatState := ChatState.IDLE
  pendingAuthAction := none
  tempAuthEmail := none
  tempAuthPhone := none
  tempAuthName := none
  tempGoogleId := none
  tempPassengerCount := 0
  tempPassengers := []
  tempGroupName := none
  tempGroupCount := 0
  tempGroupSource := none
  tempGroupOptions := []

/-- The identity payload the auth collaborator returns in the fixtures. -/
def okUser : UserData where
  name := some "Asha"
  email := "a@b.com"
  phone := "+919876543210"
  register_id := "R9"

/-- A collaborator environment in which every call succeeds (with a
non-final trip-plan reply). -/
def okEnv : Responses where
  sessionStart := Except.ok "T2"
  chatResp := Except.ok { ai_message := some "Sounds great!", is_final_itinerary := false }
  googleUrl := Except.ok "https://accounts.example/auth"
  emailLogin := Except.ok EmailLoginStatus.existing
  emailVerify := Except.ok okUser
  googlePhoneSendOtp := Except.ok "G2"
  phoneSignupSendOtp := Except.ok ()
  phoneVerify := Except.ok okUser
  savePassengers := Except.ok ()
  startPlanFromDeal := Except.ok "T3"
  createGroup := Except.ok
    { message := "Group created!", shareable_link := "https://vote.example/g1", group_id := "g1" }

/-! ## C9 -/

/-- C9: in state AUTH_EMAIL, an input without the character @ is rejected:
handleAuthEmailInput emits only the validation prompt, leaves the session
exactly as it was, and issues no collaborator call. -/
theorem auth_email_rejects_without_at (s : Session) (env : Responses) (input : String)
    (h : strIncludes input "@" = false) :
    handleAuthEmailInput s env input
      = (s, ["⚠️ Please enter a valid email address."], []) := by
  simp [handleAuthEmailInput, h]

/-- Witness for auth_email_rejects_without_at at the concrete input
"invalid-email". -/
theorem auth_email_rejects_without_at_witness :
    strIncludes "invalid-email" "@" = false ∧
    handleAuthEmailInput guestSession okEnv "invalid-email"
      = (guestSession, ["⚠️ Please enter a valid email address."], []) :=
  ⟨by decide,
   auth_email_rejects_without_at guestSession okEnv "invalid-email" (by decide)⟩

/-! ## C2 -/

/-- C2: at PASSENGER_COUNT every input parsing to an integer n ≥ 1 moves the
machine to PASSENGER_DETAILS with expectedCount = n and an empty collected
list, while NaN or a value below 1 (0, -1, non-numeric text) leaves the
session unchanged and emits the validation prompt. -/
theorem passenger_count_validation (s : Session) (input : String) :
    (∀ n : Int, jsParseInt input = some n → 1 ≤ n →
        handlePassengerCountInput s input
          = ({ s with tempPassengerCount := n, tempPassengers := [],
                      chatState := ChatState.PASSENGER_DETAILS },
             ["📝 Great, " ++ toString n ++ " travelers. Please provide details for **Passenger 1** (Name, Age, Phone).",
              "Format: `Name, Age, Phone` (e.g., John Doe, 30, 9876543210)"], [])) ∧
    ((jsParseInt input = none ∨ ∃ n : Int, jsParseInt input = some n ∧ n < 1) →
        handlePassengerCountInput s input
          = (s, ["⚠️ Please enter a valid number (1 or more)."], [])) := by
  constructor
  · intro n hp hn
    simp [handlePassengerCountInput, hp, show ¬ n < 1 by omega]
  · rintro (hp | ⟨n, hp, hn⟩)
    · simp [handlePassengerCountInput, hp]
    · simp [handlePassengerCountInput, hp, hn]

/-- Witness for passenger_count_validation at the inputs "2", "0", "-1" and
"abc". -/
theorem passenger_count_validation_witness :
    (jsParseInt "2" = some 2 ∧
     handlePassengerCountInput guestSession "2"
       = ({ guestSession with tempPassengerCount := 2, tempPassengers := [],
                              chatState := ChatState.PASSENGER_DETAILS },
          ["📝 Great, " ++ toString (2 : Int) ++ " travelers. Please provide details for **Passenger 1** (Name, Age, Phone).",
           "Format: `Name, Age, Phone` (e.g., John Doe, 30, 9876543210)"], [])) ∧
    handlePassengerCountInput guestSession "0"
      = (guestSession, ["⚠️ Please enter a valid number (1 or more)."], []) ∧
    handlePassengerCountInput guestSession "-1"
      = (guestSession, ["⚠️ Please enter a valid number (1 or more)."], []) ∧
    handlePassengerCountInput guestSession "abc"
      = (guestSession, ["⚠️ Please enter a valid number (1 or more)."], []) :=
  ⟨⟨by decide, (passenger_count_validation guestSession "2").1 2 (by decide) (by decide)⟩,
   (passenger_count_validation guestSession "0").2 (Or.inr ⟨0, by decide, by decide⟩),
   (passenger_count_validation guestSession "-1").2 (Or.inr ⟨-1, by decide, by decide⟩),
   (passenger_count_validation guestSession "abc").2 (Or.inl (by decide))⟩

/-! ## C3 -/

/-- C3: every validation failure of every state's handler returns the
session record exactly as it was (state and all scratch fields untouched),
emits only the corrective prompt, and issues no collaborator call: too-short
email (no @), too-short name, too-short phone, bad passenger count, too-few
passenger-detail parts, too-short city, group count below 2, and fewer than
2 group options. -/
theorem invalid_input_preserves_state (s : Session) (env : Responses) (input : String) :
    (strIncludes input "@" = false →
        handleAuthEmailInput s env input
          = (s, ["⚠️ Please enter a valid email address."], [])) ∧
    (jsLen input < 2 →
        handleAuthNameInput s env input = (s, ["⚠️ Please enter a valid name."], [])) ∧
    (jsLen (jsCleanPhone input) < 10 →
        handleAuthPhoneInput s env input
          = (s, ["⚠️ Please enter a valid phone number (at least 10 digits)."], [])) ∧
    ((jsParseInt input = none ∨ ∃ n : Int, jsParseInt input = some n ∧ n < 1) →
        handlePassengerCountInput s input
          = (s, ["⚠️ Please enter a valid number (1 or more)."], [])) ∧
    ((jsSplitTrim input).length < 2 →
        handlePassengerDetailsInput s env input
          = (s, ["⚠️ Please use the format: `Name, Age, Phone`"], [])) ∧
    (jsLen input < 2 →
        handleFromCityInput s env input = (s, ["⚠️ Please enter a valid city name."], [])) ∧
    ((jsParseInt input = none ∨ ∃ n : Int, jsParseInt input = some n ∧ n < 2) →
        handleGroupCountInput s input
          = (s, ["Please enter a valid number (at least 2 for a group)."], [])) ∧
    ((parseGroupOptions input).length < 2 →
        handleGroupOptionsInput s env input
          = (s, ["Please provide at least 2 options for the poll."], [])) := by
  refine ⟨?_, ?_, ?_, ?_, ?_, ?_, ?_, ?_⟩
  · intro h
    simp [handleAuthEmailInput, h]
  · intro h
    simp [handleAuthNameInput, h]
  · intro h
    simp [handleAuthPhoneInput, h]
  · rintro (hp | ⟨n, hp, hn⟩)
    · simp [handlePassengerCountInput, hp]
    · simp [handlePassengerCountInput, hp, hn]
  · intro h
    simp [handlePassengerDetailsInput, h]
  · intro h
    simp [handleFromCityInput, h]
  · rintro (hp | ⟨n, hp, hn⟩)
    · simp [handleGroupCountInput, hp]
    · simp [handleGroupCountInput, hp, hn]
  · intro h
    simp [handleGroupOptionsInput, h]

/-- Witness for invalid_input_preserves_state: the single input "x" fails
all eight validations. -/
theorem invalid_input_preserves_state_witness :
    handleAuthEmailInput guestSession okEnv "x"
      = (guestSession, ["⚠️ Please enter a valid email address."], []) ∧
    handleAuthNameInput guestSession okEnv "x"
      = (guestSession, ["⚠️ Please enter a valid name."], []) ∧
    handleAuthPhoneInput guestSession okEnv "x"
      = (guestSession, ["⚠️ Please enter a valid phone number (at least 10 digits)."], []) ∧
    handlePassengerCountInput guestSession "x"
      = (guestSession, ["⚠️ Please enter a valid number (1 or more)."], []) ∧
    handlePassengerDetailsInput guestSession okEnv "x"
      = (guestSession, ["⚠️ Please use the format: `Name, Age, Phone`"], []) ∧
    handleFromCityInput guestSession okEnv "x"
      = (guestSession, ["⚠️ Please enter a valid city name."], []) ∧
    handleGroupCountInput guestSession "x"
      = (guestSession, ["Please enter a valid number (at least 2 for a group)."], []) ∧
    handleGroupOptionsInput guestSession okEnv "x"
      = (guestSession, ["Please provide at least 2 options for the poll."], []) :=
  ⟨(invalid_input_preserves_state guestSession okEnv "x").1 (by decide),
   (invalid_input_preserves_state guestSession okEnv "x").2.1 (by decide),
   (invalid_input_preserves_state guestSession okEnv "x").2.2.1 (by decide),
   (invalid_input_preserves_state guestSession okEnv "x").2.2.2.1 (Or.inl (by decide)),
   (invalid_input_preserves_state guestSession okEnv "x").2.2.2.2.1 (by decide),
   (invalid_input_preserves_state guestSession okEnv "x").2.2.2.2.2.1 (by decide),
   (invalid_input_preserves_state guestSession okEnv "x").2.2.2.2.2.2.1 (Or.inl (by decide)),
   (invalid_input_preserves_state guestSession okEnv "x").2.2.2.2.2.2.2 (by decide)⟩

/-! ## C4 -/

/-- C4: phone normalization at AUTH_PHONE: after stripping whitespace and
dashes, fewer than 10 characters is rejected in place; exactly 10
all-numeric digits get the +91 default country code; longer cleaned inputs
already starting with + are stored unchanged; longer cleaned inputs without
+ get it prefixed. -/
theorem auth_phone_normalization (s : Session) (env : Responses) (input : String) :
    (jsLen (jsCleanPhone input) < 10 →
        handleAuthPhoneInput s env input
          = (s, ["⚠️ Please enter a valid phone number (at least 10 digits)."], [])) ∧
    (jsLen (jsCleanPhone input) = 10 → allDigits (jsCleanPhone input) = true →
        (handleAuthPhoneInput s env input).1.tempAuthPhone
          = some ("+91" ++ jsCleanPhone input)) ∧
    (10 < jsLen (jsCleanPhone input) → startsWithPlus (jsCleanPhone input) = true →
        (handleAuthPhoneInput s env input).1.tempAuthPhone = some (jsCleanPhone input)) ∧
    (10 < jsLen (jsCleanPhone input) → startsWithPlus (jsCleanPhone input) = false →
        (handleAuthPhoneInput s env input).1.tempAuthPhone
          = some ("+" ++ jsCleanPhone input)) := by
  refine ⟨?_, ?_, ?_, ?_⟩
  · intro h
    simp [handleAuthPhoneInput, h]
  · intro hlen hdig
    simp only [handleAuthPhoneInput]
    rw [if_neg (by omega)]
    rw [if_pos (by simp [hlen, hdig])]
    cases hg : s.tempGoogleId with
    | none => simp
    | some g => cases hr : env.googlePhoneSendOtp <;> simp [sendGooglePhoneOtp, hr]
  · intro hlen hplus
    simp only [handleAuthPhoneInput]
    rw [if_neg (by omega)]
    rw [if_neg (by simp [show jsLen (jsCleanPhone input) ≠ 10 by omega])]
    rw [if_neg (by simp [hplus])]
    cases hg : s.tempGoogleId with
    | none => simp
    | some g => cases hr : env.googlePhoneSendOtp <;> simp [sendGooglePhoneOtp, hr]
  · intro hlen hplus
    simp only [handleAuthPhoneInput]
    rw [if_neg (by omega)]
    rw [if_neg (by simp [show jsLen (jsCleanPhone input) ≠ 10 by omega])]
    rw [if_pos (by simp [hplus])]
    cases hg : s.tempGoogleId with
    | none => simp
    | some g => cases hr : env.googlePhoneSendOtp <;> simp [sendGooglePhoneOtp, hr]

/-- Witness for auth_phone_normalization at the concrete inputs
"9876543210", "98-76 543210", "+449876543210", "919876543210" and "12345". -/
theorem auth_phone_normalization_witness :
    (handleAuthPhoneInput guestSession okEnv "9876543210").1.tempAuthPhone
      = some ("+91" ++ jsCleanPhone "9876543210") ∧
    (handleAuthPhoneInput guestSession okEnv "98-76 543210").1.tempAuthPhone
      = some ("+91" ++ jsCleanPhone "98-76 543210") ∧
    (handleAuthPhoneInput guestSession okEnv "+449876543210").1.tempAuthPhone
      = some (jsCleanPhone "+449876543210") ∧
    (handleAuthPhoneInput guestSession okEnv "919876543210").1.tempAuthPhone
      = some ("+" ++ jsCleanPhone "919876543210") ∧
    handleAuthPhoneInput guestSession okEnv "12345"
      = (guestSession, ["⚠️ Please enter a valid phone number (at least 10 digits)."], []) ∧
    jsCleanPhone "98-76 543210" = "9876543210" :=
  ⟨(auth_phone_normalization guestSession okEnv "9876543210").2.1 (by decide) (by decide),
   (auth_phone_normalization guestSession okEnv "98-76 543210").2.1 (by decide) (by decide),
   (auth_phone_normalization guestSession okEnv "+449876543210").2.2.1 (by decide) (by decide),
   (auth_phone_normalization guestSession okEnv "919876543210").2.2.2 (by decide) (by decide),
   (auth_phone_normalization guestSession okEnv "12345").1 (by decide),
   by decide⟩

/-! ## C1 -/

/-- A session mid passenger collection: expectedCount 2, one passenger
already collected, no pending DEAL action. -/
def c1Session : Session :=
  { guestSession with
      chatState := ChatState.PASSENGER_DETAILS,
      tempPassengerCount := 2,
      tempPassengers := [{ name := "Asha", age := 30, phone := "9876543210" }],
      pendingAuthAction := some { type := PendingType.PLAN, data := none } }

/-- C1: in PASSENGER_DETAILS (collected still short of expectedCount), an
accepted passenger line grows the collected list by exactly one entry; the
machine stays in PASSENGER_DETAILS exactly while the new length is still
below expectedCount and exits exactly when it reaches it, at which point a
pending DEAL action moves it to ASK_FROM_CITY and anything else finalizes
the plan booking (passenger-save call) back in IDLE. -/
theorem passenger_details_progress (s : Session) (env : Responses) (input : String)
    (hstate : s.chatState = ChatState.PASSENGER_DETAILS)
    (hlen : (s.tempPassengers.length : Int) < s.tempPassengerCount)
    (hacc : ¬ (jsSplitTrim input).length < 2) :
    (handlePassengerDetailsInput s env input).1.tempPassengers.length
        = s.tempPassengers.length + 1 ∧
    ((handlePassengerDetailsInput s env input).1.chatState = ChatState.PASSENGER_DETAILS
        ↔ (s.tempPassengers.length : Int) + 1 < s.tempPassengerCount) ∧
    ((s.tempPassengers.length : Int) + 1 < s.tempPassengerCount →
        (handlePassengerDetailsInput s env input).2.2 = []) ∧
    ((s.tempPassengers.length : Int) + 1 = s.tempPassengerCount →
        (pendingIsDeal s = true →
          (handlePassengerDetailsInput s env input).1.chatState = ChatState.ASK_FROM_CITY ∧
          (handlePassengerDetailsInput s env input).2.2 = []) ∧
        (pendingIsDeal s = false →
          (handlePassengerDetailsInput s env input).1.chatState = ChatState.IDLE ∧
          ∃ c ∈ (handlePassengerDetailsInput s env input).2.2,
            callIsSavePassengers c = true)) := by
  simp only [handlePassengerDetailsInput]
  rw [if_neg hacc]
  generalize parsePassenger (jsSplitTrim input) = P
  by_cases hlt : (s.tempPassengers.length : Int) + 1 < s.tempPassengerCount
  · have hcond : ((s.tempPassengers ++ [P]).length : Int) < s.tempPassengerCount := by
      simp only [List.length_append, List.length_cons, List.length_nil]
      push_cast
      omega
    rw [if_pos hcond]
    refine ⟨by simp, by simp [hstate, hlt], fun _ => rfl, fun heq => absurd heq (by omega)⟩
  · have hcond : ¬ ((s.tempPassengers ++ [P]).length : Int) < s.tempPassengerCount := by
      simp only [List.length_append, List.length_cons, List.length_nil]
      push_cast
      omega
    rw [if_neg hcond]
    rcases hpa : s.pendingAuthAction with _ | pa
    · simp only [hpa]
      refine ⟨?_, ?_, fun h => absurd h hlt, fun _ => ⟨?_, ?_⟩⟩
      · simp [savePassengersAndProceed_fst]
      · simp [savePassengersAndProceed_fst, hlt]
      · intro habs
        simp [pendingIsDeal, hpa] at habs
      · intro _
        exact ⟨by simp [savePassengersAndProceed_fst],
               savePassengersAndProceed_calls _ env (by simp)⟩
    · by_cases hty : pa.type = PendingType.DEAL
      · simp only [hpa]
        rw [if_pos hty]
        refine ⟨by simp, by simp [hlt], fun h => absurd h hlt, fun _ => ⟨?_, ?_⟩⟩
        · intro _
          exact ⟨rfl, rfl⟩
        · intro habs
          simp [pendingIsDeal, hpa, hty] at habs
      · simp only [hpa]
        rw [if_neg hty]
        refine ⟨?_, ?_, fun h => absurd h hlt, fun _ => ⟨?_, ?_⟩⟩
        · simp [savePassengersAndProceed_fst]
        · simp [savePassengersAndProceed_fst, hlt]
        · intro habs
          simp [pendingIsDeal, hpa, hty] at habs
        · intro _
          exact ⟨by simp [savePassengersAndProceed_fst],
                 savePassengersAndProceed_calls _ env (by simp)⟩

/-- Witness for passenger_details_progress: with expectedCount = 2 and one
passenger already collected, the line "Raj, 32, 9123456789" completes the
collection and (with no pending DEAL) finalizes the plan booking in IDLE. -/
theorem passenger_details_progress_witness :
    (c1Session.chatState = ChatState.PASSENGER_DETAILS ∧
     (c1Session.tempPassengers.length : Int) < c1Session.tempPassengerCount ∧
     ¬ (jsSplitTrim "Raj, 32, 9123456789").length < 2) ∧
    ((handlePassengerDetailsInput c1Session okEnv "Raj, 32, 9123456789").1.tempPassengers.length
        = c1Session.tempPassengers.length + 1 ∧
     ((handlePassengerDetailsInput c1Session okEnv "Raj, 32, 9123456789").1.chatState
          = ChatState.PASSENGER_DETAILS
        ↔ (c1Session.tempPassengers.length : Int) + 1 < c1Session.tempPassengerCount) ∧
     ((c1Session.tempPassengers.length : Int) + 1 < c1Session.tempPassengerCount →
        (handlePassengerDetailsInput c1Session okEnv "Raj, 32, 9123456789").2.2 = []) ∧
     ((c1Session.tempPassengers.length : Int) + 1 = c1Session.tempPassengerCount →
        (pendingIsDeal c1Session = true →
          (handlePassengerDetailsInput c1Session okEnv "Raj, 32, 9123456789").1.chatState
            = ChatState.ASK_FROM_CITY ∧
          (handlePassengerDetailsInput c1Session okEnv "Raj, 32, 9123456789").2.2 = []) ∧
        (pendingIsDeal c1Session = false →
          (handlePassengerDetailsInput c1Session okEnv "Raj, 32, 9123456789").1.chatState
            = ChatState.IDLE ∧
          ∃ c ∈ (handlePassengerDetailsInput c1Session okEnv "Raj, 32, 9123456789").2.2,
            callIsSavePassengers c = true))) :=
  ⟨⟨by decide, by decide, by decide⟩,
   passenger_details_progress c1Session okEnv "Raj, 32, 9123456789"
     (by decide) (by decide) (by decide)⟩

/-! ## C5 -/

/-- A session at the end of the email-OTP sub-flow, with every authScratch
field populated and a pending PLAN action. -/
def c5Session : Session :=
  { guestSession with
      chatState := ChatState.AUTH_EMAIL_OTP,
      tempAuthEmail := some "a@b.com",
      tempAuthPhone := some "+919876543210",
      tempAuthName := some "Asha",
      tempGoogleId := some "G1",
      pendingAuthAction := some { type := PendingType.PLAN, data := none } }

/-- The identity payload completeLogin receives in the C5 counterexample. -/
def c5User : UserData :=
  { name := some "Asha", email := "a@b.com", phone := "+919876543210", register_id := "R9" }

/-- The same conversation later: passenger collection about to finish while
the pending PLAN action recorded before login is still set. -/
def c5AfterSession : Session :=
  { guestSession with
      chatState := ChatState.PASSENGER_DETAILS,
      pendingAuthAction := some { type := PendingType.PLAN, data := none },
      tempPassengerCount := 1,
      tempPassengers := [] }

/-- C5 counterexample: completeLogin leaves every authScratch field
(tempAuthEmail/Phone/Name/GoogleId) exactly as it was and does not reset
pendingAuthAction, and even after the recorded continuation has fully run
(passenger collection finished, plan finalized, state back in IDLE)
pendingAuthAction is still not NONE — refuting both the clearing and the
sub-flow-only invariant of the claim. -/
theorem complete_login_counterexample :
    ((completeLogin c5Session c5User).1.tempAuthEmail = some "a@b.com" ∧
     (completeLogin c5Session c5User).1.tempAuthPhone = some "+919876543210" ∧
     (completeLogin c5Session c5User).1.tempAuthName = some "Asha" ∧
     (completeLogin c5Session c5User).1.tempGoogleId = some "G1" ∧
     (completeLogin c5Session c5User).1.pendingAuthAction
        = some { type := PendingType.PLAN, data := none }) ∧
    ((handlePassengerDetailsInput c5AfterSession okEnv "Asha, 30").1.chatState
        = ChatState.IDLE ∧
     (handlePassengerDetailsInput c5AfterSession okEnv "Asha, 30").1.pendingAuthAction
        ≠ none) := by
  refine ⟨⟨?_, ?_, ?_, ?_, ?_⟩, ?_, ?_⟩ <;> decide

/-- C5 amended: completeLogin persists the identity, upgrades the identity
globals, and resumes the flow recorded in pendingAuthAction (GROUP_PLAN
resumes the group flow, anything else passenger collection), but it clears
none of the authScratch fields and never resets pendingAuthAction, which
therefore survives the sub-flows until the next initiateBookingFlow
overwrites it. -/
theorem complete_login_amended (s : Session) (u : UserData) :
    (completeLogin s u).1.tempAuthEmail = s.tempAuthEmail ∧
    (completeLogin s u).1.tempAuthPhone = s.tempAuthPhone ∧
    (completeLogin s u).1.tempAuthName = s.tempAuthName ∧
    (completeLogin s u).1.tempGoogleId = s.tempGoogleId ∧
    (completeLogin s u).1.pendingAuthAction = s.pendingAuthAction ∧
    (completeLogin s u).1.localUser
      = some { name := u.name.getD "Traveler", email := u.email,
               phone := u.phone, register_id := u.register_id } ∧
    (completeLogin s u).1.chatState
      = (match s.pendingAuthAction with
         | some pa =>
             if pa.type = PendingType.GROUP_PLAN then ChatState.GROUP_ASK_TYPE
             else ChatState.PASSENGER_COUNT
         | none => ChatState.PASSENGER_COUNT) := by
  unfold completeLogin startGroupPlan startPassengerCollection initiateBookingFlow
  rcases hpa : s.pendingAuthAction with _ | pa
  · simp [hpa]
  · by_cases hty : pa.type = PendingType.GROUP_PLAN
    · simp [hpa, hty]
    · simp [hpa, hty]

/-! ## C6 -/

/-- sendChatMessage never issues a deal-finalization start-plan call,
whatever the trip state and collaborator responses. -/
theorem sendChatMessage_no_deal_call (s : Session) (env : Responses) (m : String) :
    (sendChatMessage s env m).2.2.any callIsStartPlanFromDeal = false := by
  unfold sendChatMessage startSession renderItinerary
  cases s.tripId with
  | none => cases env.sessionStart <;> simp [callIsStartPlanFromDeal]
  | some t =>
      cases env.chatResp with
      | error e => simp [callIsStartPlanFromDeal]
      | ok r =>
          cases hb : r.is_final_itinerary <;>
            simp [hb, callIsStartPlanFromDeal]

/-- An event delivered to a session sitting in IDLE is routed to
sendChatMessage (or dropped when blank) and therefore never issues a
deal-finalization start-plan call. -/
theorem handleUserAction_idle_no_deal_call (s : Session) (env : Responses) (raw : String)
    (h : s.chatState = ChatState.IDLE) :
    (handleUserAction s env raw).2.2.any callIsStartPlanFromDeal = false := by
  unfold handleUserAction
  by_cases he : jsLen (jsTrim raw) = 0
  · simp [he]
  · rw [if_neg he, h]
    exact sendChatMessage_no_deal_call s env (jsTrim raw)

/-- A session sitting in AUTH_EMAIL, waiting for the email address. -/
def c6Session : Session := { guestSession with chatState := ChatState.AUTH_EMAIL }

/-- The deal payload of the C6 rerouting fixture. -/
def c6Deal : DealData := { id := "D1", destination := "Goa" }

/-- A session in ASK_FROM_CITY holding a pending deal booking, used to show
the from-city resubmission is rerouted. -/
def c6DealSession : Session :=
  { guestSession with
      chatState := ChatState.ASK_FROM_CITY,
      pendingAuthAction := some { type := PendingType.DEAL, data := some c6Deal },
      tempPassengerCount := 1,
      tempPassengers := [{ name := "Asha", age := 30, phone := "9876543210" }] }

/-- C6 counterexample: there is no in-flight guard.  With the session in
AUTH_EMAIL, submitting "a@b.com" issues the email-login call while leaving
chatState untouched until the response arrives, so an identical second
submission inside that window runs through the same handler and issues the
identical collaborator call a second time. -/
theorem duplicate_submission_counterexample :
    (authEmailDispatch c6Session "a@b.com").2.2 = [Call.emailLogin "a@b.com"] ∧
    (authEmailDispatch c6Session "a@b.com").1.chatState = ChatState.AUTH_EMAIL ∧
    (authEmailDispatch (authEmailDispatch c6Session "a@b.com").1 "a@b.com").2.2
      = [Call.emailLogin "a@b.com"] := by
  refine ⟨?_, ?_, ?_⟩ <;> decide

/-- C6 amended: whether a resubmission during flight is deduplicated
depends on the handler.  (a) In AUTH_EMAIL the next state is decided by the
awaited email-login response, so the synchronous part of the handler leaves
chatState unchanged while the call is in flight and a second identical
submission inside that window is routed to the same handler and issues a
second identical collaborator call.  (b) In ASK_FROM_CITY the handler
commits chatState = IDLE synchronously before the awaited deal-finalization
call, so a resubmission during that window is routed to the free-text IDLE
handler and no second deal-finalization call is issued. -/
theorem duplicate_submission_amended (s s2 : Session) (input city : String)
    (pa : PendingAction) (d : DealData)
    (hst : s.chatState = ChatState.AUTH_EMAIL)
    (hv : strIncludes input "@" = true)
    (_hst2 : s2.chatState = ChatState.ASK_FROM_CITY)
    (hc : ¬ jsLen city < 2)
    (hpa : s2.pendingAuthAction = some pa) (hd : pa.data = some d)
    (hps : s2.tempPassengers ≠ []) :
    (authEmailDispatch s input).2.2 = [Call.emailLogin input] ∧
    (authEmailDispatch s input).1.chatState = ChatState.AUTH_EMAIL ∧
    (authEmailDispatch (authEmailDispatch s input).1 input).2.2
      = [Call.emailLogin input] ∧
    (fromCityDispatch s2 city).2.2.any callIsStartPlanFromDeal = true ∧
    (fromCityDispatch s2 city).1.chatState = ChatState.IDLE ∧
    (∀ env : Responses, ∀ raw : String,
      (handleUserAction (fromCityDispatch s2 city).1 env raw).2.2.any
          callIsStartPlanFromDeal = false) := by
  have hidle : (fromCityDispatch s2 city).1.chatState = ChatState.IDLE ∧
      (fromCityDispatch s2 city).2.2.any callIsStartPlanFromDeal = true := by
    unfold fromCityDispatch
    rw [if_neg hc]
    simp only [hpa, hd]
    rcases hl : s2.tempPassengers with _ | ⟨p, ps⟩
    · exact absurd hl hps
    · simp [callIsStartPlanFromDeal]
  refine ⟨?_, ?_, ?_, hidle.2, hidle.1, ?_⟩
  · simp [authEmailDispatch, hv]
  · simp [authEmailDispatch, hv, hst]
  · simp [authEmailDispatch, hv]
  · intro env raw
    exact handleUserAction_idle_no_deal_call _ env raw hidle.1

/-- Witness for duplicate_submission_amended: the email "dup@x.com"
resubmitted in AUTH_EMAIL is duplicated, while in ASK_FROM_CITY (deal
pending, passengers collected) the city "Mumbai" commits IDLE before the
call, so resubmitting "Mumbai" issues no second deal-finalization call. -/
theorem duplicate_submission_amended_witness :
    (c6Session.chatState = ChatState.AUTH_EMAIL ∧
     strIncludes "dup@x.com" "@" = true ∧
     c6DealSession.chatState = ChatState.ASK_FROM_CITY ∧
     ¬ jsLen "Mumbai" < 2 ∧
     c6DealSession.tempPassengers ≠ []) ∧
    ((authEmailDispatch c6Session "dup@x.com").2.2 = [Call.emailLogin "dup@x.com"] ∧
     (authEmailDispatch c6Session "dup@x.com").1.chatState = ChatState.AUTH_EMAIL ∧
     (authEmailDispatch (authEmailDispatch c6Session "dup@x.com").1 "dup@x.com").2.2
       = [Call.emailLogin "dup@x.com"] ∧
     (fromCityDispatch c6DealSession "Mumbai").2.2.any callIsStartPlanFromDeal = true ∧
     (fromCityDispatch c6DealSession "Mumbai").1.chatState = ChatState.IDLE) ∧
    (handleUserAction (fromCityDispatch c6DealSession "Mumbai").1 okEnv "Mumbai").2.2.any
        callIsStartPlanFromDeal = false :=
  have h := duplicate_submission_amended c6Session c6DealSession "dup@x.com" "Mumbai"
    { type := PendingType.DEAL, data := some c6Deal } c6Deal
    (by decide) (by decide) (by decide) (by decide) rfl rfl (by decide)
  ⟨⟨by decide, by decide, by decide, by decide, by decide⟩,
   ⟨h.1, h.2.1, h.2.2.1, h.2.2.2.1, h.2.2.2.2.1⟩,
   h.2.2.2.2.2 okEnv "Mumbai"⟩

/-- sendChatMessage on an active trip whose reply is not a final itinerary
leaves the session unchanged and issues the trip-plan message call. -/
theorem sendChatMessage_not_final (s : Session) (env : Responses) (m t : String)
    (h2 : s.tripId = some t) (h3 : chatRespNotFinal env = true) :
    (sendChatMessage s env m).1 = s ∧
    Call.sendTripMessage t m ∈ (sendChatMessage s env m).2.2 := by
  unfold sendChatMessage
  rw [h2]
  cases hr : env.chatResp with
  | error e => simp
  | ok r =>
      have hf : r.is_final_itinerary = false := by
        unfold chatRespNotFinal at h3
        rw [hr] at h3
        simpa using h3
      simp [hf]

/-! ## C7 -/

/-- C7: the group sub-flow: in GROUP_ASK_TYPE, "alone" routes back to IDLE
forwarding a solo-plan message, anything else moves to GROUP_ASK_NAME;
GROUP_ASK_COUNT accepts a parsed integer exactly when it is at least 2;
GROUP_ASK_OPTIONS accepts a comma list only with at least 2 non-empty
trimmed entries, then issues the group-creation request with exactly those
options and returns to IDLE on success. -/
theorem group_flow_transitions (s : Session) (env : Responses) (input : String) (t : String) :
    (strIncludes (jsToLower input) "alone" = true → s.tripId = some t →
        chatRespNotFinal env = true →
        (handleGroupTypeInput s env input).1.chatState = ChatState.IDLE ∧
        Call.sendTripMessage t "I want to plan a solo trip."
          ∈ (handleGroupTypeInput s env input).2.2) ∧
    (strIncludes (jsToLower input) "alone" = false →
        handleGroupTypeInput s env input
          = ({ s with chatState := ChatState.GROUP_ASK_NAME },
             ["Exciting! What should we call this group trip?"], [])) ∧
    (∀ n : Int, jsParseInt input = some n →
        (n < 2 →
          handleGroupCountInput s input
            = (s, ["Please enter a valid number (at least 2 for a group)."], [])) ∧
        (2 ≤ n →
          handleGroupCountInput s input
            = ({ s with tempGroupCount := n, chatState := ChatState.GROUP_ASK_OPTIONS },
               ["Got it, " ++ toString n ++ " people. Now, please list **4 destination options** for the poll (comma separated).",
                "Example: Bali, Goa, Paris, Dubai"], []))) ∧
    (jsParseInt input = none →
        handleGroupCountInput s input
          = (s, ["Please enter a valid number (at least 2 for a group)."], [])) ∧
    ((parseGroupOptions input).length < 2 →
        handleGroupOptionsInput s env input
          = (s, ["Please provide at least 2 options for the poll."], [])) ∧
    (2 ≤ (parseGroupOptions input).length → ∀ r, env.createGroup = Except.ok r →
        (handleGroupOptionsInput s env input).1.chatState = ChatState.IDLE ∧
        (handleGroupOptionsInput s env input).1.tempGroupOptions = parseGroupOptions input ∧
        (handleGroupOptionsInput s env input).2.2
          = [Call.createGroup s.tempGroupName s.tempGroupSource s.tempGroupCount
               (parseGroupOptions input)]) := by
  refine ⟨?_, ?_, ?_, ?_, ?_, ?_⟩
  · intro h1 h2 h3
    simp only [handleGroupTypeInput]
    rw [if_pos h1]
    have hs := sendChatMessage_not_final { s with chatState := ChatState.IDLE } env
      "I want to plan a solo trip." t (by simpa using h2) h3
    exact ⟨by rw [hs.1], hs.2⟩
  · intro h1
    simp [handleGroupTypeInput, h1]
  · intro n hp
    constructor
    · intro hn
      simp [handleGroupCountInput, hp, hn]
    · intro hn
      simp [handleGroupCountInput, hp, show ¬ n < 2 by omega]
  · intro hp
    simp [handleGroupCountInput, hp]
  · intro h
    simp [handleGroupOptionsInput, h]
  · intro h r hr
    simp only [handleGroupOptionsInput]
    rw [if_neg (by omega)]
    simp [hr]

/-- A session mid group setup used by the C7 witness. -/
def c7Session : Session :=
  { guestSession with
      chatState := ChatState.GROUP_ASK_TYPE,
      tempGroupName := some "Goa Gang",
      tempGroupSource := some "Mumbai",
      tempGroupCount := 5 }

/-- Witness for group_flow_transitions at the inputs "alone",
"with friends", "1", "5", "soon", "Goa" and "Goa, Manali, Jaipur" (the last
creating a group with exactly 3 options). -/
theorem group_flow_transitions_witness :
    ((handleGroupTypeInput c7Session okEnv "alone").1.chatState = ChatState.IDLE ∧
     Call.sendTripMessage "T1" "I want to plan a solo trip."
       ∈ (handleGroupTypeInput c7Session okEnv "alone").2.2) ∧
    handleGroupTypeInput c7Session okEnv "with friends"
      = ({ c7Session with chatState := ChatState.GROUP_ASK_NAME },
         ["Exciting! What should we call this group trip?"], []) ∧
    handleGroupCountInput c7Session "1"
      = (c7Session, ["Please enter a valid number (at least 2 for a group)."], []) ∧
    handleGroupCountInput c7Session "5"
      = ({ c7Session with tempGroupCount := 5, chatState := ChatState.GROUP_ASK_OPTIONS },
         ["Got it, " ++ toString (5 : Int) ++ " people. Now, please list **4 destination options** for the poll (comma separated).",
          "Example: Bali, Goa, Paris, Dubai"], []) ∧
    handleGroupCountInput c7Session "soon"
      = (c7Session, ["Please enter a valid number (at least 2 for a group)."], []) ∧
    handleGroupOptionsInput c7Session okEnv "Goa"
      = (c7Session, ["Please provide at least 2 options for the poll."], []) ∧
    parseGroupOptions "Goa, Manali, Jaipur" = ["Goa", "Manali", "Jaipur"] ∧
    ((handleGroupOptionsInput c7Session okEnv "Goa, Manali, Jaipur").1.chatState
        = ChatState.IDLE ∧
     (handleGroupOptionsInput c7Session okEnv "Goa, Manali, Jaipur").1.tempGroupOptions
        = parseGroupOptions "Goa, Manali, Jaipur" ∧
     (handleGroupOptionsInput c7Session okEnv "Goa, Manali, Jaipur").2.2
        = [Call.createGroup c7Session.tempGroupName c7Session.tempGroupSource
             c7Session.tempGroupCount (parseGroupOptions "Goa, Manali, Jaipur")]) :=
  ⟨(group_flow_transitions c7Session okEnv "alone" "T1").1 (by decide) (by decide) (by decide),
   (group_flow_transitions c7Session okEnv "with friends" "T1").2.1 (by decide),
   ((group_flow_transitions c7Session okEnv "1" "T1").2.2.1 1 (by decide)).1 (by decide),
   ((group_flow_transitions c7Session okEnv "5" "T1").2.2.1 5 (by decide)).2 (by decide),
   (group_flow_transitions c7Session okEnv "soon" "T1").2.2.2.1 (by decide),
   (group_flow_transitions c7Session okEnv "Goa" "T1").2.2.2.2.1 (by decide),
   by decide,
   (group_flow_transitions c7Session okEnv "Goa, Manali, Jaipur" "T1").2.2.2.2.2
     (by decide)
     { message := "Group created!", shareable_link := "https://vote.example/g1", group_id := "g1" }
     rfl⟩

/-! ## C8 -/

/-- C8 amended: when the deal-booking finalization call fails after a valid
departure city was accepted in ASK_FROM_CITY, the failure is surfaced as the
booking-failed output message (without any retry suggestion), the session
sits in IDLE — the state the handler set just before issuing the call — and
no scratch data is lost (passengers, counts, tripId all retained; the deal
payload keeps the collected city). -/
theorem deal_failure_amended (s : Session) (env : Responses) (city : String)
    (pa : PendingAction) (d : DealData) (e : String)
    (hc : ¬ jsLen city < 2)
    (hpa : s.pendingAuthAction = some pa) (hd : pa.data = some d)
    (hps : s.tempPassengers ≠ [])
    (herr : env.startPlanFromDeal = Except.error e) :
    (handleFromCityInput s env city).1.chatState = ChatState.IDLE ∧
    (handleFromCityInput s env city).2.1 = ["❌ Booking failed: " ++ e] ∧
    (handleFromCityInput s env city).1.tempPassengers = s.tempPassengers ∧
    (handleFromCityInput s env city).1.tempPassengerCount = s.tempPassengerCount ∧
    (handleFromCityInput s env city).1.tripId = s.tripId ∧
    (handleFromCityInput s env city).1.pendingAuthAction
      = some { pa with data := some { d with from_city := some city } } ∧
    (handleFromCityInput s env city).2.2
      = [Call.startPlanFromDeal d.id s.tempPassengers city] := by
  have hemp : city.data.isEmpty = false := by
    unfold jsLen at hc
    cases hcd : city.data with
    | nil => rw [hcd] at hc; simp at hc
    | cons a l => simp
  simp only [handleFromCityInput]
  rw [if_neg hc]
  simp only [hpa, hd]
  unfold finalizeDealBooking
  rcases hl : s.tempPassengers with _ | ⟨p, ps⟩
  · exact absurd hl hps
  · simp [herr, jsOrDefault, hemp, hl]

/-- The deal payload of the C8 fixtures. -/
def c8Deal : DealData := { id := "D1", destination := "Goa" }

/-- A session in ASK_FROM_CITY holding a pending deal booking. -/
def c8Session : Session :=
  { guestSession with
      chatState := ChatState.ASK_FROM_CITY,
      pendingAuthAction := some { type := PendingType.DEAL, data := some c8Deal },
      tempPassengerCount := 1,
      tempPassengers := [{ name := "Asha", age := 30, phone := "9876543210" }] }

/-- A collaborator environment whose deal-finalization call fails
transiently. -/
def c8Env : Responses := { okEnv with startPlanFromDeal := Except.error "Network Error" }

/-- C8 counterexample: on the transient finalization failure the only
surfaced message is "❌ Booking failed: Network Error", which contains no
retry suggestion — not even the substring "try" — refuting the claim that
the failure is surfaced with a retry suggestion. -/
theorem deal_failure_counterexample :
    (handleFromCityInput c8Session c8Env "Mumbai").2.1
      = ["❌ Booking failed: Network Error"] ∧
    strIncludes (jsToLower "❌ Booking failed: Network Error") "retry" = false ∧
    strIncludes (jsToLower "❌ Booking failed: Network Error") "try" = false := by
  refine ⟨?_, ?_, ?_⟩ <;> decide

/-- Witness for deal_failure_amended at the C8 fixtures and the city
"Mumbai". -/
theorem deal_failure_amended_witness :
    (handleFromCityInput c8Session c8Env "Mumbai").1.chatState = ChatState.IDLE ∧
    (handleFromCityInput c8Session c8Env "Mumbai").2.1
      = ["❌ Booking failed: " ++ "Network Error"] ∧
    (handleFromCityInput c8Session c8Env "Mumbai").1.tempPassengers
      = c8Session.tempPassengers ∧
    (handleFromCityInput c8Session c8Env "Mumbai").1.tempPassengerCount
      = c8Session.tempPassengerCount ∧
    (handleFromCityInput c8Session c8Env "Mumbai").1.tripId = c8Session.tripId ∧
    (handleFromCityInput c8Session c8Env "Mumbai").1.pendingAuthAction
      = some { type := PendingType.DEAL,
               data := some { c8Deal with from_city := some "Mumbai" } } ∧
    (handleFromCityInput c8Session c8Env "Mumbai").2.2
      = [Call.startPlanFromDeal c8Deal.id c8Session.tempPassengers "Mumbai"] :=
  deal_failure_amended c8Session c8Env "Mumbai"
    { type := PendingType.DEAL, data := some c8Deal } c8Deal "Network Error"
    (by decide) rfl rfl (by decide) rfl

/-! ## C10 -/

/-- C10: at PASSENGER_COUNT, any input whose leading characters are a
digit run of value n ≥ 1 is accepted with expectedCount = n even when
trailing non-numeric text follows, and the only rejected inputs are those
with no leading integer or whose leading integer is below 1. -/
theorem passenger_count_leading_integer (s : Session) (ds : List Char) (rest : String)
    (hne : ds.isEmpty = false) (hdig : ds.all Char.isDigit = true)
    (hrest : headNotDigit rest.data = true) (hn : 1 ≤ digitsToNat ds) :
    handlePassengerCountInput s ⟨ds ++ rest.data⟩
      = ({ s with tempPassengerCount := (digitsToNat ds : Int), tempPassengers := [],
                  chatState := ChatState.PASSENGER_DETAILS },
         ["📝 Great, " ++ toString (digitsToNat ds : Int) ++ " travelers. Please provide details for **Passenger 1** (Name, Age, Phone).",
          "Format: `Name, Age, Phone` (e.g., John Doe, 30, 9876543210)"], []) ∧
    (∀ input : String,
      handlePassengerCountInput s input
          = (s, ["⚠️ Please enter a valid number (1 or more)."], []) →
      jsParseInt input = none ∨ ∃ n : Int, jsParseInt input = some n ∧ n < 1) := by
  constructor
  · have hp := jsParseInt_digits_append ds rest.data hne hdig hrest
    simp [handlePassengerCountInput, hp, show ¬ (digitsToNat ds : Int) < 1 by omega]
  · intro input h
    cases hp : jsParseInt input with
    | none => exact Or.inl rfl
    | some n =>
        by_cases hlt : n < 1
        · exact Or.inr ⟨n, rfl, hlt⟩
        · exfalso
          rw [show handlePassengerCountInput s input
              = ({ s with tempPassengerCount := n, tempPassengers := [],
                          chatState := ChatState.PASSENGER_DETAILS },
                 ["📝 Great, " ++ toString n ++ " travelers. Please provide details for **Passenger 1** (Name, Age, Phone).",
                  "Format: `Name, Age, Phone` (e.g., John Doe, 30, 9876543210)"], [])
              from by simp [handlePassengerCountInput, hp, hlt]] at h
          simp at h

/-- Witness for passenger_count_leading_integer at the input "3 people"
(accepted with expectedCount 3 despite the trailing text) and the rejected
input "abc". -/
theorem passenger_count_leading_integer_witness :
    String.mk (['3'] ++ " people".data) = "3 people" ∧
    handlePassengerCountInput guestSession ⟨['3'] ++ " people".data⟩
      = ({ guestSession with
             tempPassengerCount := (digitsToNat ['3'] : Int), tempPassengers := [],
             chatState := ChatState.PASSENGER_DETAILS },
         ["📝 Great, " ++ toString (digitsToNat ['3'] : Int) ++ " travelers. Please provide details for **Passenger 1** (Name, Age, Phone).",
          "Format: `Name, Age, Phone` (e.g., John Doe, 30, 9876543210)"], []) ∧
    (jsParseInt "abc" = none ∨ ∃ n : Int, jsParseInt "abc" = some n ∧ n < 1) :=
  ⟨by decide,
   (passenger_count_leading_integer guestSession ['3'] " people"
      (by decide) (by decide) (by decide) (by decide)).1,
   (passenger_count_leading_integer guestSession ['3'] " people"
      (by decide) (by decide) (by decide) (by decide)).2 "abc" (by decide)⟩

end TravelOrbit
